import Mathlib

/-!
Verification of the PID tuning loop in `src/src/opcontrol.c` (`operatorControl`).

The loop body is embedded as a pure step function on an explicit state record.
Floating-point scalars of the C code are modelled as exact rationals (`ℚ`);
the per-cycle external inputs (debounced button edges, joystick axis 3, the
calibrated analog sensor reading) are an explicit input record.  The C call
`abs(error)` applies the integer `abs` from stdlib to a `float`, so the value
compared against the integral limit is `abs((int)error)`, i.e. truncation
toward zero followed by integer absolute value; this equals `⌊|error|⌋` and is
modelled exactly so.
-/

/-- Pressed-edge state, for one cycle, of every debounced button the loop
reads via `toggleBtnGet` (joystick 1; group/direction as in the source). -/
structure Buttons where
  /-- group 7 / right: cycle through increments -/
  incCycle : Bool
  /-- group 7 / up: kp increase -/
  kpUp : Bool
  /-- group 7 / down: kp decrease -/
  kpDown : Bool
  /-- group 8 / left: zero kp -/
  kpZero : Bool
  /-- group 5 / up: ki increase -/
  kiUp : Bool
  /-- group 5 / down: ki decrease -/
  kiDown : Bool
  /-- group 8 / up: zero ki -/
  kiZero : Bool
  /-- group 6 / up: kd increase -/
  kdUp : Bool
  /-- group 6 / down: kd decrease -/
  kdDown : Bool
  /-- group 8 / right: zero kd -/
  kdZero : Bool
  /-- group 8 / down: pid enable/disable toggle -/
  enableToggle : Bool
deriving DecidableEq

/-- External inputs consumed by one iteration of the loop: the button edges,
the joystick analog axis 3 value (`joystickGetAnalog(1, 3)`), and the
calibrated sensor reading (`analogRead(inputChannel)`). -/
structure CycleInput where
  btn : Buttons
  axis3 : ℚ
  sensor : ℚ
deriving DecidableEq

/-- The mutable locals of `operatorControl` that persist across iterations. -/
structure PidState where
  isEnabled : Bool
  /-- index into `increments`, the C local `size_t i` -/
  i : Nat
  kp : ℚ
  ki : ℚ
  kd : ℚ
  setpoint : ℚ
  error : ℚ
  lastError : ℚ
  input : ℚ
  output : ℚ
  proportional : ℚ
  integral : ℚ
  derivative : ℚ
deriving DecidableEq

/-- `float increments[] = \x7b 0.001, 0.01, 0.1 \x7d;` -/
def increments : List ℚ := [1/1000, 1/100, 1/10]

/-- `const float integralLimit = 100;` -/
def integralLimit : ℚ := 100

/-- `const int16_t inputMin = 7;` -/
def inputMin : ℚ := 7

/-- `const int16_t inputMax = 4095;` -/
def inputMax : ℚ := 4095

/-- `const int8_t outputMin = -60;` -/
def outputMin : ℚ := -60

/-- `const int8_t outputMax = 60;` -/
def outputMax : ℚ := 60

/-- The increment-cycling block: `if (toggleBtnGet(1,7,JOY_RIGHT) == BUTTON_PRESSED)
\x7b if (++i >= 3) \x7b i = 0; \x7d \x7d`. -/
def nextIndex (i : Nat) (pressed : Bool) : Nat :=
  if pressed then (if i + 1 ≥ 3 then 0 else i + 1) else i

/-- One gain-adjustment if/else-if chain, shared by kp, ki and kd: increase
wins over decrease, which wins over the zero action. -/
def adjustGain (g inc : ℚ) (up down zero : Bool) : ℚ :=
  if up then g + inc
  else if down then g - inc
  else if zero then 0
  else g

/-- The setpoint clamp: `if (setpoint > inputMax) ... else if (setpoint < inputMin) ...`. -/
def clampSetpoint (x : ℚ) : ℚ :=
  if x > inputMax then inputMax else if x < inputMin then inputMin else x

/-- The output clamp: `if (output < outputMin) ... else if (output > outputMax) ...`. -/
def clampOutput (x : ℚ) : ℚ :=
  if x < outputMin then outputMin else if x > outputMax then outputMax else x

/-- `abs(error)` in the source: stdlib integer `abs` applied to a `float`
truncates toward zero first, so the compared value is `abs((int)x) = ⌊|x|⌋`. -/
def cAbsInt (x : ℚ) : ℤ := Int.floor (abs x)

/-- The enabled flag in force during the control computation of a cycle:
the toggle (`group 8 / down`) is processed before the `if (isEnabled)` branch. -/
def cycleEnabled (st : PidState) (inp : CycleInput) : Bool :=
  if inp.btn.enableToggle then !st.isEnabled else st.isEnabled

/-- The active tuning step of a cycle, `increments[i]` after the
increment-cycling block has run. -/
def activeInc (st : PidState) (inp : CycleInput) : ℚ :=
  increments.getD (nextIndex st.i inp.btn.incCycle) 0

/-- One iteration of the `while (true)` body of `operatorControl`
(lines 103-192 of `src/src/opcontrol.c`), as a pure state transformer. -/
def step (st : PidState) (inp : CycleInput) : PidState :=
  let i := nextIndex st.i inp.btn.incCycle
  let inc := increments.getD i 0
  let kp := adjustGain st.kp inc inp.btn.kpUp inp.btn.kpDown inp.btn.kpZero
  let ki := adjustGain st.ki inc inp.btn.kiUp inp.btn.kiDown inp.btn.kiZero
  let kd := adjustGain st.kd inc inp.btn.kdUp inp.btn.kdDown inp.btn.kdZero
  let setpoint := clampSetpoint (st.setpoint + inp.axis3)
  let input := inp.sensor
  let isEnabled := cycleEnabled st inp
  if isEnabled then
    let error := input - setpoint
    let proportional := error
    let integral := if cAbsInt error < 100 then st.integral + error else 0
    let derivative := error - st.lastError
    let output := clampOutput (kp * proportional + ki * integral + kd * derivative)
    { isEnabled := isEnabled, i := i, kp := kp, ki := ki, kd := kd,
      setpoint := setpoint, input := input,
      error := error, lastError := error,
      proportional := proportional, integral := integral,
      derivative := derivative, output := output }
  else
    { isEnabled := isEnabled, i := i, kp := kp, ki := ki, kd := kd,
      setpoint := setpoint, input := input,
      error := st.error, lastError := st.lastError,
      proportional := st.proportional, integral := 0,
      derivative := st.derivative, output := 0 }

/-- The value passed to `motorSet(outputChannel, output)` at the end of a cycle. -/
def motorValue (st : PidState) (inp : CycleInput) : ℚ :=
  (step st inp).output

/-- The state of the locals at the top of the first loop iteration
(lines 58-101 of the source). -/
def initState : PidState :=
  { isEnabled := false, i := 0, kp := 1/100, ki := 1/100, kd := 1/100,
    setpoint := 2000, error := 0, lastError := 0, input := 0, output := 0,
    proportional := 0, integral := 0, derivative := 0 }

/-- Running the loop over a finite list of per-cycle inputs. -/
def run (st : PidState) (inps : List CycleInput) : PidState :=
  List.foldl step st inps

/-- Every cycle of the list is executed with the effective enabled flag false. -/
def allDisabled (st : PidState) : List CycleInput → Bool
  | [] => true
  | inp :: rest => !(cycleEnabled st inp) && allDisabled (step st inp) rest

/-- A cycle input with no button pressed. -/
def noButtons : Buttons :=
  { incCycle := false, kpUp := false, kpDown := false, kpZero := false,
    kiUp := false, kiDown := false, kiZero := false,
    kdUp := false, kdDown := false, kdZero := false, enableToggle := false }

example : (step initState { btn := noButtons, axis3 := 0, sensor := 0 }).output = 0 := by decide

/-! ### Helper lemmas about `step` -/

theorem step_i (st : PidState) (inp : CycleInput) :
    (step st inp).i = nextIndex st.i inp.btn.incCycle := by
  cases h : cycleEnabled st inp <;> simp [step, h]

theorem step_kp (st : PidState) (inp : CycleInput) :
    (step st inp).kp =
      adjustGain st.kp (activeInc st inp) inp.btn.kpUp inp.btn.kpDown inp.btn.kpZero := by
  cases h : cycleEnabled st inp <;> simp [step, h, activeInc]

theorem step_ki (st : PidState) (inp : CycleInput) :
    (step st inp).ki =
      adjustGain st.ki (activeInc st inp) inp.btn.kiUp inp.btn.kiDown inp.btn.kiZero := by
  cases h : cycleEnabled st inp <;> simp [step, h, activeInc]

theorem step_kd (st : PidState) (inp : CycleInput) :
    (step st inp).kd =
      adjustGain st.kd (activeInc st inp) inp.btn.kdUp inp.btn.kdDown inp.btn.kdZero := by
  cases h : cycleEnabled st inp <;> simp [step, h, activeInc]

theorem step_setpoint (st : PidState) (inp : CycleInput) :
    (step st inp).setpoint = clampSetpoint (st.setpoint + inp.axis3) := by
  cases h : cycleEnabled st inp <;> simp [step, h]

theorem step_input (st : PidState) (inp : CycleInput) :
    (step st inp).input = inp.sensor := by
  cases h : cycleEnabled st inp <;> simp [step, h]

theorem step_error_of_enabled (st : PidState) (inp : CycleInput)
    (h : cycleEnabled st inp = true) :
    (step st inp).error = (step st inp).input - (step st inp).setpoint := by
  simp [step, h]

theorem step_integral_of_enabled (st : PidState) (inp : CycleInput)
    (h : cycleEnabled st inp = true) :
    (step st inp).integral =
      if cAbsInt (step st inp).error < 100 then st.integral + (step st inp).error else 0 := by
  simp [step, h]

theorem step_derivative_of_enabled (st : PidState) (inp : CycleInput)
    (h : cycleEnabled st inp = true) :
    (step st inp).derivative = (step st inp).error - st.lastError := by
  simp [step, h]

theorem step_output_of_enabled (st : PidState) (inp : CycleInput)
    (h : cycleEnabled st inp = true) :
    (step st inp).output =
      clampOutput ((step st inp).kp * (step st inp).error
        + (step st inp).ki * (step st inp).integral
        + (step st inp).kd * (step st inp).derivative) := by
  simp [step, h]

theorem step_lastError_of_enabled (st : PidState) (inp : CycleInput)
    (h : cycleEnabled st inp = true) :
    (step st inp).lastError = (step st inp).error := by
  simp [step, h]

theorem step_integral_of_disabled (st : PidState) (inp : CycleInput)
    (h : cycleEnabled st inp = false) :
    (step st inp).integral = 0 := by
  simp [step, h]

theorem step_output_of_disabled (st : PidState) (inp : CycleInput)
    (h : cycleEnabled st inp = false) :
    (step st inp).output = 0 := by
  simp [step, h]

theorem step_lastError_of_disabled (st : PidState) (inp : CycleInput)
    (h : cycleEnabled st inp = false) :
    (step st inp).lastError = st.lastError := by
  simp [step, h]

theorem clampOutput_bounds (x : ℚ) : outputMin ≤ clampOutput x ∧ clampOutput x ≤ outputMax := by
  unfold clampOutput outputMin outputMax
  rcases lt_or_le x (-60) with h | h
  · rw [if_pos h]; norm_num
  · rw [if_neg (not_lt.mpr h)]
    rcases lt_or_le 60 x with h2 | h2
    · rw [if_pos h2]; norm_num
    · rw [if_neg (not_lt.mpr h2)]
      exact ⟨h, h2⟩

theorem clampSetpoint_bounds (x : ℚ) :
    inputMin ≤ clampSetpoint x ∧ clampSetpoint x ≤ inputMax := by
  unfold clampSetpoint inputMin inputMax
  rcases lt_or_le 4095 x with h | h
  · rw [if_pos h]; norm_num
  · rw [if_neg (not_lt.mpr h)]
    rcases lt_or_le x 7 with h2 | h2
    · rw [if_pos h2]; norm_num
    · rw [if_neg (not_lt.mpr h2)]
      exact ⟨h2, h⟩

theorem cAbsInt_lt_iff (x : ℚ) : cAbsInt x < 100 ↔ abs x < 100 := by
  unfold cAbsInt
  rw [Int.floor_lt]
  norm_num

theorem le_cAbsInt_iff (x : ℚ) : 100 ≤ cAbsInt x ↔ 100 ≤ abs x := by
  unfold cAbsInt
  rw [Int.le_floor]
  norm_num

/-! ### Claim theorems -/

/-- Sample cycle input that toggles the controller on, with the sensor at 1950. -/
def c1Input : CycleInput :=
  { btn := { noButtons with enableToggle := true }, axis3 := 0, sensor := 1950 }

/-- C1: on every cycle executed with the enabled flag true, the control
computation sets `error = input - setpoint`, `derivative = error - lastError`,
and `output = kp*error + ki*integral + kd*derivative` (with the integral taken
after this cycle's anti-windup update), clamped to `[-60, 60]`, and this
clamped output is the value written to the motor. -/
theorem C1_enabled_pid_output (st : PidState) (inp : CycleInput)
    (h : cycleEnabled st inp = true) :
    (step st inp).error = (step st inp).input - (step st inp).setpoint ∧
    (step st inp).derivative = (step st inp).error - st.lastError ∧
    (step st inp).output =
      clampOutput ((step st inp).kp * (step st inp).error
        + (step st inp).ki * (step st inp).integral
        + (step st inp).kd * (step st inp).derivative) ∧
    -60 ≤ (step st inp).output ∧ (step st inp).output ≤ 60 ∧
    motorValue st inp = (step st inp).output := by
  refine ⟨step_error_of_enabled st inp h, step_derivative_of_enabled st inp h,
    step_output_of_enabled st inp h, ?_, ?_, rfl⟩
  · rw [step_output_of_enabled st inp h]; exact (clampOutput_bounds _).1
  · rw [step_output_of_enabled st inp h]; exact (clampOutput_bounds _).2

/-- Witness for C1 at a concrete enabled cycle. -/
theorem C1_enabled_pid_output_witness :
    -60 ≤ (step initState c1Input).output ∧ (step initState c1Input).output ≤ 60 :=
  ⟨(C1_enabled_pid_output initState c1Input (by decide)).2.2.2.1,
   (C1_enabled_pid_output initState c1Input (by decide)).2.2.2.2.1⟩

/-- The spec scenario for a disabled cycle: setpoint 2000, sensor 1800. -/
def c2Input : CycleInput := { btn := noButtons, axis3 := 0, sensor := 1800 }

/-- C2: every cycle executed with the enabled flag false ends with
`integral = 0` and `output = 0`, and 0 is written to the motor, for every
state (gains, setpoint) and every sensor input. -/
theorem C2_disabled_zeroes (st : PidState) (inp : CycleInput)
    (h : cycleEnabled st inp = false) :
    (step st inp).integral = 0 ∧ (step st inp).output = 0 ∧ motorValue st inp = 0 :=
  ⟨step_integral_of_disabled st inp h, step_output_of_disabled st inp h,
   step_output_of_disabled st inp h⟩

/-- Witness for C2: the spec scenario Enabled=false, Setpoint=2000, Input=1800. -/
theorem C2_disabled_zeroes_witness :
    (step initState c2Input).integral = 0 ∧ (step initState c2Input).output = 0 ∧
    motorValue initState c2Input = 0 :=
  C2_disabled_zeroes initState c2Input (by decide)

/-- C6: on every cycle, enabled or not, the joystick axis value is added to
the setpoint and the result is clamped, so the post-cycle setpoint always
lies in `[7, 4095]`, for every delta magnitude and prior setpoint. -/
theorem C6_setpoint_update_clamped (st : PidState) (inp : CycleInput) :
    (step st inp).setpoint = clampSetpoint (st.setpoint + inp.axis3) ∧
    7 ≤ (step st inp).setpoint ∧ (step st inp).setpoint ≤ 4095 := by
  refine ⟨step_setpoint st inp, ?_, ?_⟩ <;> rw [step_setpoint st inp]
  · exact (clampSetpoint_bounds _).1
  · exact (clampSetpoint_bounds _).2

/-- C10: before the first cycle the state is: disabled, increment index 0
(first active increment 0.001), kp = ki = kd = 0.01 (all non-zero),
setpoint = 2000, and error, lastError, integral and output all 0. -/
theorem C10_initial_state :
    initState.isEnabled = false ∧ initState.i = 0 ∧
    increments.getD initState.i 0 = 1/1000 ∧
    initState.kp = 1/100 ∧ initState.ki = 1/100 ∧ initState.kd = 1/100 ∧
    initState.setpoint = 2000 ∧
    initState.error = 0 ∧ initState.lastError = 0 ∧
    initState.integral = 0 ∧ initState.output = 0 ∧
    initState.kp ≠ 0 ∧ initState.ki ≠ 0 ∧ initState.kd ≠ 0 := by
  norm_num [initState, increments]

/-- The spec scenario state for C3: enabled, kp = 0.01, ki = kd = 0,
setpoint 2000, integral 0, lastError 0. -/
def c3State : PidState :=
  { initState with isEnabled := true, ki := 0, kd := 0 }

/-- The spec scenario input for C3: sensor at 2100, no buttons, no axis delta. -/
def c3Input : CycleInput := { btn := noButtons, axis3 := 0, sensor := 2100 }

/-- C3: on every enabled cycle, `|error| < 100` accumulates the error into the
integral, while `|error| ≥ 100` (including exactly 100) hard-resets it to 0;
in the spec scenario (kp = 0.01, ki = kd = 0, input 2100, setpoint 2000) the
cycle yields error 100, integral 0, derivative 100 and clamped output 1. -/
theorem C3_integral_antiwindup :
    (∀ (st : PidState) (inp : CycleInput), cycleEnabled st inp = true →
      (abs (step st inp).error < 100 →
        (step st inp).integral = st.integral + (step st inp).error) ∧
      (100 ≤ abs (step st inp).error → (step st inp).integral = 0)) ∧
    cycleEnabled c3State c3Input = true ∧
    (step c3State c3Input).error = 100 ∧
    (step c3State c3Input).integral = 0 ∧
    (step c3State c3Input).derivative = 100 ∧
    (step c3State c3Input).output = 1 := by
  constructor
  · intro st inp h
    rw [step_integral_of_enabled st inp h]
    constructor
    · intro habs
      rw [if_pos ((cAbsInt_lt_iff _).mpr habs)]
    · intro habs
      rw [if_neg (not_lt.mpr ((le_cAbsInt_iff _).mpr habs))]
  · refine ⟨by decide, ?_, ?_, ?_, ?_⟩ <;>
      norm_num [step, c3State, c3Input, initState, noButtons, cycleEnabled,
        clampSetpoint, clampOutput, cAbsInt, nextIndex, adjustGain, increments,
        inputMin, inputMax, outputMin, outputMax]

/-- Witness for C3's accumulate branch at a concrete enabled cycle with
error -50. -/
theorem C3_integral_antiwindup_witness :
    (step initState c1Input).integral = initState.integral + (step initState c1Input).error := by
  apply (C3_integral_antiwindup.1 initState c1Input (by decide)).1
  norm_num [step, initState, c1Input, noButtons, cycleEnabled, clampSetpoint,
    nextIndex, adjustGain, increments, inputMin, inputMax]

/-- Input pressing a gain's zero control and its increase control together. -/
def c4Input : CycleInput :=
  { btn := { noButtons with kpUp := true, kpZero := true }, axis3 := 0, sensor := 0 }

/-- Counterexample to C4 as stated: with kp-increase (group 7 / up) and
kp-zero (group 8 / left) pressed in the same cycle, kp is incremented, not
zeroed — the zero action is not unconditional. -/
theorem C4_zero_unconditional_cex :
    c4Input.btn.kpZero = true ∧ (step initState c4Input).kp ≠ 0 := by
  refine ⟨rfl, ?_⟩
  rw [step_kp]
  norm_num [adjustGain, c4Input, noButtons, activeInc, nextIndex, initState, increments]

/-- C4 (amended): a pressed zero control sets its gain to exactly 0 on that
cycle provided that same gain's increase and decrease controls are not
pressed; the gain's prior value and all other controls are irrelevant. -/
theorem C4_zero_sets_gain (st : PidState) (inp : CycleInput) :
    (inp.btn.kpUp = false → inp.btn.kpDown = false → inp.btn.kpZero = true →
      (step st inp).kp = 0) ∧
    (inp.btn.kiUp = false → inp.btn.kiDown = false → inp.btn.kiZero = true →
      (step st inp).ki = 0) ∧
    (inp.btn.kdUp = false → inp.btn.kdDown = false → inp.btn.kdZero = true →
      (step st inp).kd = 0) := by
  refine ⟨fun h1 h2 h3 => ?_, fun h1 h2 h3 => ?_, fun h1 h2 h3 => ?_⟩
  · rw [step_kp]; simp [adjustGain, h1, h2, h3]
  · rw [step_ki]; simp [adjustGain, h1, h2, h3]
  · rw [step_kd]; simp [adjustGain, h1, h2, h3]

/-- Input pressing all three zero controls at once, nothing else. -/
def c4ZeroInput : CycleInput :=
  { btn := { noButtons with kpZero := true, kiZero := true, kdZero := true },
    axis3 := 0, sensor := 0 }

/-- Witness for the amended C4: all three gains zeroed in one cycle. -/
theorem C4_zero_sets_gain_witness :
    (step initState c4ZeroInput).kp = 0 ∧ (step initState c4ZeroInput).ki = 0 ∧
    (step initState c4ZeroInput).kd = 0 :=
  ⟨(C4_zero_sets_gain initState c4ZeroInput).1 rfl rfl rfl,
   (C4_zero_sets_gain initState c4ZeroInput).2.1 rfl rfl rfl,
   (C4_zero_sets_gain initState c4ZeroInput).2.2 rfl rfl rfl⟩

/-- What one gain-adjustment chain may do in a cycle: exactly one of the four
outcomes, selected by the priority order increase, then decrease, then zero. -/
def gainActionSpec (g g2 inc : ℚ) (u d z : Bool) : Prop :=
  (g2 = g + inc ∨ g2 = g - inc ∨ g2 = 0 ∨ g2 = g) ∧
  (u = true → g2 = g + inc) ∧
  (u = false → d = true → g2 = g - inc) ∧
  (u = false → d = false → z = true → g2 = 0) ∧
  (u = false → d = false → z = false → g2 = g)

theorem adjustGain_spec (g inc : ℚ) (u d z : Bool) :
    gainActionSpec g (adjustGain g inc u d z) inc u d z := by
  cases u <;> cases d <;> cases z <;> simp [gainActionSpec, adjustGain]

/-- C5: per gain and cycle at most one of increase/decrease/zero takes
effect, in the fixed priority order increase, decrease, zero; simultaneous
presses are never summed into the gain. -/
theorem C5_gain_priority (st : PidState) (inp : CycleInput) :
    gainActionSpec st.kp (step st inp).kp (activeInc st inp)
      inp.btn.kpUp inp.btn.kpDown inp.btn.kpZero ∧
    gainActionSpec st.ki (step st inp).ki (activeInc st inp)
      inp.btn.kiUp inp.btn.kiDown inp.btn.kiZero ∧
    gainActionSpec st.kd (step st inp).kd (activeInc st inp)
      inp.btn.kdUp inp.btn.kdDown inp.btn.kdZero := by
  refine ⟨?_, ?_, ?_⟩
  · rw [step_kp]; exact adjustGain_spec _ _ _ _ _
  · rw [step_ki]; exact adjustGain_spec _ _ _ _ _
  · rw [step_kd]; exact adjustGain_spec _ _ _ _ _

/-- Input pressing only the kp-zero control. -/
def c5Input : CycleInput :=
  { btn := { noButtons with kpZero := true }, axis3 := 0, sensor := 0 }

/-- Witness for C5 at a concrete cycle: the zero branch fires when neither
increase nor decrease is pressed. -/
theorem C5_gain_priority_witness : (step initState c5Input).kp = 0 :=
  (C5_gain_priority initState c5Input).1.2.2.2.1 rfl rfl rfl

theorem nextIndex_lt (i : Nat) (b : Bool) (h : i < 3) : nextIndex i b < 3 := by
  unfold nextIndex
  split
  · split <;> omega
  · exact h

theorem run_i_lt (inps : List CycleInput) :
    ∀ st : PidState, st.i < 3 → (run st inps).i < 3 := by
  induction inps with
  | nil => intro st h; exact h
  | cons inp rest ih =>
      intro st h
      exact ih (step st inp) (by rw [step_i]; exact nextIndex_lt _ _ h)

/-- C7: the increment index stays in \x7b0, 1, 2\x7d on every reachable cycle, and
each pressed edge of the cycle-increment control (group 7 / right) advances it
by one modulo 3, while an unpressed cycle leaves it unchanged. -/
theorem C7_index_invariant :
    (∀ inps : List CycleInput, (run initState inps).i < 3) ∧
    (∀ (st : PidState) (inp : CycleInput), st.i < 3 →
      (step st inp).i = if inp.btn.incCycle then (st.i + 1) % 3 else st.i) := by
  constructor
  · intro inps
    exact run_i_lt inps initState (by norm_num [initState])
  · intro st inp h
    rw [step_i]
    unfold nextIndex
    cases hb : inp.btn.incCycle
    · simp
    · rw [if_pos rfl, if_pos rfl]
      split <;> omega

/-- Input pressing only the cycle-increment control. -/
def c7Input : CycleInput :=
  { btn := { noButtons with incCycle := true }, axis3 := 0, sensor := 0 }

/-- Witness for C7 at the initial state with the cycle-increment control
pressed: the index advances from 0 to 1. -/
theorem C7_index_invariant_witness : (step initState c7Input).i = (initState.i + 1) % 3 := by
  have h := C7_index_invariant.2 initState c7Input (by norm_num [initState])
  simpa [c7Input, noButtons] using h

/-- C8: lastError is written only inside the enabled branch, so any sequence
of cycles all executed with the effective enabled flag false leaves lastError
exactly as the most recent enabled cycle set it. -/
theorem C8_lastError_frame (st : PidState) (inps : List CycleInput)
    (h : allDisabled st inps = true) :
    (run st inps).lastError = st.lastError := by
  induction inps generalizing st with
  | nil => rfl
  | cons inp rest ih =>
      unfold allDisabled at h
      rw [Bool.and_eq_true] at h
      have h1 : cycleEnabled st inp = false := by
        have h0 := h.1
        simpa using h0
      have h2 := ih (step st inp) h.2
      show (run (step st inp) rest).lastError = st.lastError
      rw [h2, step_lastError_of_disabled st inp h1]

/-- Two consecutive disabled cycles for the C8 witness. -/
def c8Inputs : List CycleInput := [c2Input, c2Input]

/-- Witness for C8: two disabled cycles preserve lastError. -/
theorem C8_lastError_frame_witness :
    (run initState c8Inputs).lastError = initState.lastError :=
  C8_lastError_frame initState c8Inputs (by decide)

/-- C9: for every state, a cycle pressing a gain's increase control followed
by a cycle pressing its decrease control (increase released; increment index
untouched in both cycles) returns that gain exactly to its original value. -/
theorem C9_increase_decrease_roundtrip (st : PidState) (inp1 inp2 : CycleInput)
    (hc1 : inp1.btn.incCycle = false) (hc2 : inp2.btn.incCycle = false) :
    (inp1.btn.kpUp = true → inp2.btn.kpUp = false → inp2.btn.kpDown = true →
      (step (step st inp1) inp2).kp = st.kp) ∧
    (inp1.btn.kiUp = true → inp2.btn.kiUp = false → inp2.btn.kiDown = true →
      (step (step st inp1) inp2).ki = st.ki) ∧
    (inp1.btn.kdUp = true → inp2.btn.kdUp = false → inp2.btn.kdDown = true →
      (step (step st inp1) inp2).kd = st.kd) := by
  have hi : (step st inp1).i = st.i := by
    simp [step_i, nextIndex, hc1]
  have hinc : activeInc (step st inp1) inp2 = activeInc st inp1 := by
    simp [activeInc, nextIndex, hc1, hc2, hi]
  refine ⟨fun h1 h2 h3 => ?_, fun h1 h2 h3 => ?_, fun h1 h2 h3 => ?_⟩
  · rw [step_kp (step st inp1) inp2, hinc, step_kp st inp1]
    simp [adjustGain, h1, h2, h3]
  · rw [step_ki (step st inp1) inp2, hinc, step_ki st inp1]
    simp [adjustGain, h1, h2, h3]
  · rw [step_kd (step st inp1) inp2, hinc, step_kd st inp1]
    simp [adjustGain, h1, h2, h3]

/-- First C9 witness cycle: all three increase controls pressed. -/
def c9UpInput : CycleInput :=
  { btn := { noButtons with kpUp := true, kiUp := true, kdUp := true },
    axis3 := 0, sensor := 0 }

/-- Second C9 witness cycle: all three decrease controls pressed. -/
def c9DownInput : CycleInput :=
  { btn := { noButtons with kpDown := true, kiDown := true, kdDown := true },
    axis3 := 0, sensor := 0 }

/-- Witness for C9: increase then decrease restores all three gains. -/
theorem C9_increase_decrease_roundtrip_witness :
    (step (step initState c9UpInput) c9DownInput).kp = initState.kp ∧
    (step (step initState c9UpInput) c9DownInput).ki = initState.ki ∧
    (step (step initState c9UpInput) c9DownInput).kd = initState.kd :=
  ⟨(C9_increase_decrease_roundtrip initState c9UpInput c9DownInput rfl rfl).1 rfl rfl rfl,
   (C9_increase_decrease_roundtrip initState c9UpInput c9DownInput rfl rfl).2.1 rfl rfl rfl,
   (C9_increase_decrease_roundtrip initState c9UpInput c9DownInput rfl rfl).2.2 rfl rfl rfl⟩
